import Mathlib

/- Shallow embedding of OpenPilot's simulated-sensors module (sensors.c) and of the
   airspeed state-estimation filter (flight/modules/StateEstimation/filterair.c).
   Rational numbers stand in for C float/double arithmetic, except where the source
   takes square roots or uses pi and trigonometric functions, where real numbers are
   used.  A float NaN is modelled, where a claim depends on it, by an Option value
   whose none case stands for a non-finite float. -/

/-- The slots of the stateEstimation record used by filterair.c: the update bitmask
restricted to the bar and air flags, the barometric altitude slot bar[0], and the
two-slot airspeed array air[0] (indicated) and air[1] (true airspeed). -/
structure StateEst where
  barUpdated : Bool
  airUpdated : Bool
  bar : ℚ
  air0 : ℚ
  air1 : ℚ

/-- filterair.c line 41: IAS2TAS(alt) = 1.0f + (0.02f * (alt) / 304.8f). -/
def IAS2TAS (alt : ℚ) : ℚ := 1 + 0.02 * alt / 304.8

/-- filterair.c lines 60-64: init resets the static altitude variable to 0 and
returns 0.  Result: (new stored altitude, status). -/
def filterAirInit : ℚ × Int := (0, 0)

/-- filterair.c lines 66-78: the filter stage.  Takes the static altitude variable
and the incoming state; returns (new stored altitude, new state, status). -/
def filterAir (altitude : ℚ) (s : StateEst) : ℚ × StateEst × Int :=
  let altitude1 := if s.barUpdated then s.bar else altitude
  let s1 := if s.airUpdated then { s with air1 := s.air0 * IAS2TAS altitude1 } else s
  (altitude1, s1, 0)

/-- PIOS_DELAY_DiffuS: unsigned 32-bit difference now - last, in microseconds
(wrap-safe modular subtraction). -/
def elapsedUS (now last : Nat) : Nat := (now + 4294967296 - last) % 4294967296

/-- sensors.c lines 466-536 and 738-815: every scheduled channel (GPS position, GPS
velocity, magnetometer, barometer, airspeed) tests
PIOS_DELAY_DiffuS(last_time) / 1.0e6 > PERIOD and, when the test passes, publishes
its reading and stores the current raw time.  Result: (emitted this tick, new
last-emission timestamp). -/
def channelStep (period : ℚ) (now last : Nat) : Bool × Nat :=
  if (elapsedUS now last : ℚ) / 1000000 > period then (true, now) else (false, last)

/-- sensors.c lines 338, 578: GPS_PERIOD = 0.1. -/
def GPS_PERIOD : ℚ := 0.1

/-- sensors.c lines 339, 579: MAG_PERIOD = 1.0 / 75.0. -/
def MAG_PERIOD : ℚ := 1 / 75

/-- sensors.c lines 340, 580: BARO_PERIOD = 1.0 / 20.0 (also gates the airspeed
channel, line 750). -/
def BARO_PERIOD : ℚ := 1 / 20

/-- sensors.c lines 336, 576: MAX_THRUST = GRAV * 2 with GRAV = 9.81. -/
def MAX_THRUST : ℚ := 9.81 * 2

/-- sensors.c lines 354-359 and 596-601: thrust is Throttle * MAX_THRUST when armed,
else 0; a negative value is clamped to 0; a NaN (thrust != thrust) is replaced by 0.
The float is modelled as Option ℚ with none standing for NaN: NaN compares false
under <, so the negative clamp leaves it alone, and the final self-inequality test
maps it to 0. -/
def computeThrust (armed : Bool) (throttle : Option ℚ) : ℚ :=
  let t0 : Option ℚ := if armed then Option.map (fun x => x * MAX_THRUST) throttle else some 0
  let t1 : Option ℚ := Option.map (fun x => if x < 0 then 0 else x) t0
  t1.getD 0

/-- 3-component vector of rationals. -/
abbrev V3 := ℚ × ℚ × ℚ

/-- The state-bus fields read while building a published gyroscope sample:
RateDesired (agnostic variant), the low-pass-filtered actuator response rpy
(quadcopter and airplane variants), the current roll angle (airplane roll-to-yaw
coupling), the three rand_gauss draws of the tick, and the GyrosBias estimate. -/
structure GyroBus where
  rateDesired : V3
  rpy : V3
  roll : ℚ
  noise : V3
  gyrosBias : V3

/-- sensors.c lines 229-241 (simulateConstant): gyro = (0,0,0) plus GyrosBias. -/
def gyroOutConstant (b : GyroBus) : V3 :=
  (0 + b.gyrosBias.1, 0 + b.gyrosBias.2.1, 0 + b.gyrosBias.2.2)

/-- sensors.c lines 285-298 (simulateModelAgnostic): gyro = RateDesired plus
rand_gauss noise, then plus GyrosBias. -/
def gyroOutAgnostic (b : GyroBus) : V3 :=
  (b.rateDesired.1 + b.noise.1 + b.gyrosBias.1,
   b.rateDesired.2.1 + b.noise.2.1 + b.gyrosBias.2.1,
   b.rateDesired.2.2 + b.noise.2.2 + b.gyrosBias.2.2)

/-- sensors.c lines 379-383 (simulateModelQuadcopter): gyro = rpy plus rand_gauss
noise.  GyrosBias is never read in this variant. -/
def gyroOutQuadcopter (b : GyroBus) : V3 :=
  (b.rpy.1 + b.noise.1, b.rpy.2.1 + b.noise.2.1, b.rpy.2.2 + b.noise.2.2)

/-- sensors.c lines 627-634 (simulateModelAirplane): rpy[2] += roll *
ROLL_HEADING_COUPLING (= 0.1), then gyro = rpy plus rand_gauss noise.  GyrosBias is
never read in this variant. -/
def gyroOutAirplane (b : GyroBus) : V3 :=
  (b.rpy.1 + b.noise.1, b.rpy.2.1 + b.noise.2.1, (b.rpy.2.2 + b.roll * 0.1) + b.noise.2.2)

/-- sensors.c lines 441-446 and 713-718: if pos[2] > 0 (down positive, so below
ground) then pos[2], vel[2] and ned_accel[2] are all set to 0.  Result:
(pos[2], vel[2], ned_accel[2]) after the clamp. -/
def groundClamp (pos2 vel2 acc2 : ℚ) : ℚ × ℚ × ℚ :=
  if pos2 > 0 then (0, 0, 0) else (pos2, vel2, acc2)

/-- Persistent barometer-channel state: the static baro_offset and the static
last_baro_time. -/
structure BaroState where
  off : ℚ
  last : Nat

/-- sensors.c lines 459-474 and 731-746: every tick, baro_offset is re-seeded to 50
when it is exactly 0 and otherwise random-walked by rand_gauss()/100; then, when
PIOS_DELAY_DiffuS(last_baro_time)/1.0e6 > BARO_PERIOD, the reading
-pos[2] + baro_offset is published and last_baro_time is set to now.  Result: (new
state, reading emitted this tick, if any). -/
def baroTick (pos2 g : ℚ) (now : Nat) (s : BaroState) : BaroState × Option ℚ :=
  let off1 := if s.off = 0 then 50 else s.off + g / 100
  if (elapsedUS now s.last : ℚ) / 1000000 > BARO_PERIOD then
    (⟨off1, now⟩, some (-pos2 + off1))
  else
    (⟨off1, s.last⟩, none)

/-- The SystemSettings AirframeType values named in the dispatch of SensorsTask
(sensors.c lines 174-189); other ▸ code stands for every remaining value of the
configuration enum (out-of-range or unknown ones included). -/
inductive AirframeType where
  | fixedWing
  | fixedWingElevon
  | fixedWingVTail
  | quadX
  | quadP
  | vtol
  | hexa
  | octo
  | other (code : Nat)

/-- sensors.c line 98: enum sensor_sim_type. -/
inductive SensorSimType where
  | constant
  | modelAgnostic
  | modelQuadcopter
  | modelAirplane
deriving DecidableEq

/-- sensors.c lines 174-189: the switch over systemSettings.AirframeType selecting
the simulation variant; the default case selects MODEL_AGNOSTIC. -/
def selectSimType : AirframeType → SensorSimType
  | .fixedWing => .modelAirplane
  | .fixedWingElevon => .modelAirplane
  | .fixedWingVTail => .modelAirplane
  | .quadX => .modelQuadcopter
  | .quadP => .modelQuadcopter
  | .vtol => .modelQuadcopter
  | .hexa => .modelQuadcopter
  | .octo => .modelQuadcopter
  | .other _ => .modelAgnostic

/-- The attitude quaternion state q[4] of the quadcopter and airplane variants. -/
structure Quat where
  q0 : ℝ
  q1 : ℝ
  q2 : ℝ
  q3 : ℝ

/-- Sum of the squared components, as computed at sensors.c lines 398 and 649
(q[0]*q[0] + q[1]*q[1] + q[2]*q[2] + q[3]*q[3]). -/
noncomputable def sumSq (q : Quat) : ℝ :=
  q.q0 * q.q0 + q.q1 * q.q1 + q.q2 * q.q2 + q.q3 * q.q3

/-- sensors.c lines 386-390 and 637-641: the quaternion derivative qdot, the Hamilton
product of q with the angular rate rpy (degrees, hence the M_PI / 180 conversion),
scaled by dT and one half. -/
noncomputable def quatDot (q : Quat) (r0 r1 r2 dT : ℝ) : Quat :=
  ⟨(-q.q1 * r0 - q.q2 * r1 - q.q3 * r2) * dT * Real.pi / 180 / 2,
   (q.q0 * r0 - q.q3 * r1 + q.q2 * r2) * dT * Real.pi / 180 / 2,
   (q.q3 * r0 + q.q0 * r1 - q.q1 * r2) * dT * Real.pi / 180 / 2,
   (-q.q2 * r0 + q.q1 * r1 + q.q0 * r2) * dT * Real.pi / 180 / 2⟩

/-- sensors.c lines 393-396 and 644-647: the explicit Euler step q := q + qdot. -/
noncomputable def quatEuler (q : Quat) (r0 r1 r2 dT : ℝ) : Quat :=
  ⟨q.q0 + (quatDot q r0 r1 r2 dT).q0,
   q.q1 + (quatDot q r0 r1 r2 dT).q1,
   q.q2 + (quatDot q r0 r1 r2 dT).q2,
   q.q3 + (quatDot q r0 r1 r2 dT).q3⟩

/-- sensors.c lines 398-402 and 649-653: qmag = sqrtf(sum of squares); each
component is divided by qmag. -/
noncomputable def quatNormalize (q : Quat) : Quat :=
  ⟨q.q0 / Real.sqrt (sumSq q),
   q.q1 / Real.sqrt (sumSq q),
   q.q2 / Real.sqrt (sumSq q),
   q.q3 / Real.sqrt (sumSq q)⟩

/-- One attitude integration step of the quadcopter and airplane variants: the
explicit Euler step followed by the mandatory re-normalization. -/
noncomputable def quatStep (q : Quat) (r0 r1 r2 dT : ℝ) : Quat :=
  quatNormalize (quatEuler q r0 r1 r2 dT)

/-- A 3x3 rotation matrix by rows. -/
structure Mat3 where
  m00 : ℝ
  m01 : ℝ
  m02 : ℝ
  m10 : ℝ
  m11 : ℝ
  m12 : ℝ
  m20 : ℝ
  m21 : ℝ
  m22 : ℝ

/-- Modelled from the spec: Quaternion2R of CoordinateConversions.c is declared in
CoordinateConversions.h but its body is not among the provided sources; the spec says
it computes the body-to-earth rotation from the quaternion, which is the standard
quaternion-to-direction-cosine-matrix formula used throughout OpenPilot. -/
noncomputable def Quaternion2R (q0 q1 q2 q3 : ℝ) : Mat3 :=
  ⟨q0 * q0 + q1 * q1 - q2 * q2 - q3 * q3, 2 * (q1 * q2 + q0 * q3), 2 * (q1 * q3 - q0 * q2),
   2 * (q1 * q2 - q0 * q3), q0 * q0 - q1 * q1 + q2 * q2 - q3 * q3, 2 * (q2 * q3 + q0 * q1),
   2 * (q1 * q3 + q0 * q2), 2 * (q2 * q3 - q0 * q1), q0 * q0 - q1 * q1 - q2 * q2 + q3 * q3⟩

/-- Float division with none standing for a non-finite result: dividing by zero
yields NaN or an infinity in C float arithmetic. -/
noncomputable def fdiv (a b : ℝ) : Option ℝ :=
  if b = 0 then none else some (a / b)

/-- The inputs read by magOffsetEstimation (sensors.c lines 899-945): the home
magnetic field Be, the attitude quaternion and yaw angle (degrees), the current
MagBias estimate, and the raw simulated magnetometer reading. -/
structure MagEnv where
  be0 : ℝ
  be1 : ℝ
  be2 : ℝ
  yaw : ℝ
  q0 : ℝ
  q1 : ℝ
  q2 : ℝ
  q3 : ℝ
  biasx : ℝ
  biasy : ℝ
  biasz : ℝ
  magx : ℝ
  magy : ℝ
  magz : ℝ

/-- sensors.c lines 908-928: the bias estimate is removed from the reading and the
result is rotated into the NED frame through the transpose of the attitude rotation
matrix (B_e). -/
noncomputable def magNED (e : MagEnv) : ℝ × ℝ × ℝ :=
  let mx := e.magx - e.biasx
  let my := e.magy - e.biasy
  let mz := e.magz - e.biasz
  let R := Quaternion2R e.q0 e.q1 e.q2 e.q3
  (R.m00 * mx + R.m10 * my + R.m20 * mz,
   R.m01 * mx + R.m11 * my + R.m21 * mz,
   R.m02 * mx + R.m12 * my + R.m22 * mz)

/-- sensors.c lines 930-934: the horizontal component of B_e rotated into the
yaw-aligned frame. -/
noncomputable def magXY (e : MagEnv) : ℝ × ℝ :=
  let cy := Real.cos (e.yaw * Real.pi / 180)
  let sy := Real.sin (e.yaw * Real.pi / 180)
  (cy * (magNED e).1 + sy * (magNED e).2.1,
   -sy * (magNED e).1 + cy * (magNED e).2.1)

/-- sensors.c line 936: xy_norm = sqrtf(xy[0]*xy[0] + xy[1]*xy[1]). -/
noncomputable def magXYNorm (e : MagEnv) : ℝ :=
  Real.sqrt ((magXY e).1 * (magXY e).1 + (magXY e).2 * (magXY e).2)

/-- sensors.c lines 913-916 and 938-940: Rxy and Rz from the home field, rate =
0.01, and the bias increment delta; delta[0] and delta[1] divide xy components by
xy_norm with no guard, so they are Option-valued with none standing for a
non-finite float. -/
noncomputable def magDelta (e : MagEnv) : Option ℝ × Option ℝ × ℝ :=
  let Rxy := Real.sqrt (e.be0 * e.be0 + e.be1 * e.be1)
  let Rz := e.be2
  let rate : ℝ := 0.01
  (Option.map (fun t => -rate * (t * Rxy - (magXY e).1)) (fdiv (magXY e).1 (magXYNorm e)),
   Option.map (fun t => -rate * (t * Rxy - (magXY e).2)) (fdiv (magXY e).2 (magXYNorm e)),
   -rate * (Rz - (magNED e).2.2))

/-- A concrete magnetometer-estimator input: home field (400, 0, 800), identity
attitude quaternion, yaw 0, zero bias estimate, raw reading (0, 0, 1). -/
noncomputable def magEnvVertical : MagEnv :=
  ⟨400, 0, 800, 0, 1, 0, 0, 0, 0, 0, 0, 0, 0, 1⟩

/-- C1: when a new indicated-airspeed reading is present, the filter returns
success (0), the stored altitude becomes the most recent barometric reading seen (it
starts at 0 after init and is replaced exactly when a new barometric reading is
present), and air[1] receives air[0] multiplied by
1 + 0.02 * (stored altitude in meters converted to feet) / 1000. -/
theorem filterAir_true_airspeed (altitude : ℚ) (s : StateEst)
    (h : s.airUpdated = true) :
    (filterAir altitude s).2.2 = 0 ∧
    filterAirInit.1 = 0 ∧
    (filterAir altitude s).1 = (if s.barUpdated then s.bar else altitude) ∧
    (filterAir altitude s).2.1.air1 =
      s.air0 * (1 + 0.02 * ((if s.barUpdated then s.bar else altitude) / 0.3048) / 1000) := by
  refine ⟨rfl, rfl, rfl, ?_⟩
  have hf : ∀ x : ℚ, IAS2TAS x = 1 + 0.02 * (x / 0.3048) / 1000 := by
    intro x
    unfold IAS2TAS
    ring
  rcases hb : s.barUpdated <;> simp [filterAir, h, hb, hf]

/-- Witness for C1 at a concrete input: barometric reading 1524 m (5000 ft) and
indicated airspeed 100 give true airspeed 110 and status 0. -/
theorem filterAir_true_airspeed_witness :
    (filterAir 7 ⟨true, true, 1524, 100, 0⟩).2.2 = 0 ∧
    (filterAir 7 ⟨true, true, 1524, 100, 0⟩).2.1.air1 = 110 := by
  have h := filterAir_true_airspeed 7 ⟨true, true, 1524, 100, 0⟩ rfl
  refine ⟨h.1, ?_⟩
  rw [h.2.2.2]
  norm_num

/-- C9: the IAS2TAS altitude-correction factor equals exactly 1 at altitude 0 and is
strictly increasing in altitude. -/
theorem ias2tas_one_at_zero_strictMono : IAS2TAS 0 = 1 ∧ StrictMono IAS2TAS := by
  constructor
  · norm_num [IAS2TAS]
  · intro a b hab
    have he : ∀ x : ℚ, IAS2TAS x = 1 + (0.02 / 304.8) * x := by
      intro x; simp [IAS2TAS]; ring
    have hc : (0 : ℚ) < 0.02 / 304.8 := by norm_num
    rw [he a, he b]
    have := mul_lt_mul_of_pos_left hab hc
    linarith

/-- Witness for C9: the factor at altitude 0 equals 1 and is smaller than at
altitude 1. -/
theorem ias2tas_one_at_zero_strictMono_witness :
    IAS2TAS 0 = 1 ∧ IAS2TAS 0 < IAS2TAS 1 :=
  ⟨ias2tas_one_at_zero_strictMono.1,
   ias2tas_one_at_zero_strictMono.2 (by norm_num)⟩

/-- C3: after the ground-contact clamp the down position is never positive (never
below ground level), and whenever the clamp fires (the position had crossed the
ground plane) the vertical velocity is exactly 0 afterwards. -/
theorem groundClamp_no_below_ground (p v a : ℚ) :
    (groundClamp p v a).1 ≤ 0 ∧ (0 < p → (groundClamp p v a).2.1 = 0) := by
  constructor
  · by_cases hp : 0 < p
    · simp [groundClamp, hp]
    · simp only [groundClamp, gt_iff_lt, if_neg hp]
      exact le_of_not_lt hp
  · intro hp
    simp [groundClamp, hp]

/-- Witness for C3 at a concrete input where the clamp fires: position 1 (below
ground), velocity 5, acceleration 3. -/
theorem groundClamp_no_below_ground_witness :
    (groundClamp 1 5 3).1 ≤ 0 ∧ (groundClamp 1 5 3).2.1 = 0 :=
  ⟨(groundClamp_no_below_ground 1 5 3).1,
   (groundClamp_no_below_ground 1 5 3).2 (by norm_num)⟩

/-- C4 as stated is false: with the GPS period of 0.1 s and an elapsed time of
exactly 100000 microseconds the elapsed time meets the period, yet the channel does
not emit, because the source compares with a strict inequality. -/
theorem channel_exact_period_counterexample :
    (channelStep GPS_PERIOD 100000 0).1 = false ∧
    (elapsedUS 100000 0 : ℚ) / 1000000 ≥ GPS_PERIOD := by
  have hc : ¬ ((elapsedUS 100000 0 : ℚ) / 1000000 > GPS_PERIOD) := by
    norm_num [elapsedUS, GPS_PERIOD]
  constructor
  · simp [channelStep, hc]
  · norm_num [elapsedUS, GPS_PERIOD]

/-- C4 amended: a channel emits if and only if the elapsed time since its own last
emission strictly exceeds its period, and an emission resets that channel's
last-emission timestamp to the current time (otherwise the timestamp is kept). -/
theorem channel_step_emits_iff_strictly_exceeds (period : ℚ) (now last : Nat) :
    ((channelStep period now last).1 = true ↔
      (elapsedUS now last : ℚ) / 1000000 > period) ∧
    (channelStep period now last).2 =
      (if (channelStep period now last).1 = true then now else last) := by
  unfold channelStep
  by_cases hc : (elapsedUS now last : ℚ) / 1000000 > period <;> simp [hc]

/-- C5 as stated is false: armed with throttle -1 the code produces thrust 0, not
throttle * MAX_THRUST. -/
theorem thrust_negative_throttle_counterexample :
    computeThrust true (some (-1)) = 0 ∧ (-1 : ℚ) * MAX_THRUST ≠ 0 := by
  constructor
  · norm_num [computeThrust, MAX_THRUST]
  · norm_num [MAX_THRUST]

/-- C5 amended: when armed, the thrust equals throttle * MAX_THRUST clamped below at
0; it is 0 whenever the vehicle is not armed; and a non-finite (NaN) throttle
product is treated as zero thrust. -/
theorem thrust_clamped (t : ℚ) (th : Option ℚ) :
    computeThrust true (some t) = (if t * MAX_THRUST < 0 then 0 else t * MAX_THRUST) ∧
    computeThrust false th = 0 ∧
    computeThrust true none = 0 := by
  refine ⟨?_, ?_, rfl⟩
  · by_cases hc : t * MAX_THRUST < 0 <;> simp [computeThrust, hc]
  · simp [computeThrust]

/-- C6: every airframe-type value that is not one of the recognized fixed-wing or
multirotor enum values is dispatched to the ModelAgnostic variant. -/
theorem unknown_airframe_selects_model_agnostic (n : Nat) :
    selectSimType (AirframeType.other n) = SensorSimType.modelAgnostic := rfl

/-- C7 as stated is false: in the Quadcopter variant, the published gyro reading is
unchanged when the GyrosBias estimate changes from (0,0,0) to (1,1,1), so the bias
estimate is not an addend of the output. -/
theorem quad_gyro_not_bias_corrected_counterexample :
    ¬ (gyroOutQuadcopter ⟨(0, 0, 0), (0, 0, 0), 0, (0, 0, 0), (1, 1, 1)⟩ =
       gyroOutQuadcopter ⟨(0, 0, 0), (0, 0, 0), 0, (0, 0, 0), (0, 0, 0)⟩ + ((1 : ℚ), (1 : ℚ), (1 : ℚ))) := by
  simp [gyroOutQuadcopter, Prod.ext_iff]

/-- C7 amended: the Constant and ModelAgnostic variants publish a bias-corrected
gyro reading (the current GyrosBias estimate is an addend of the output), while the
Quadcopter and Airplane variants publish the filtered actuator response plus noise
with no bias addend (their output does not depend on the bias estimate at all). -/
theorem gyro_bias_correction_by_variant (b : GyroBus) :
    gyroOutConstant b = gyroOutConstant { b with gyrosBias := (0, 0, 0) } + b.gyrosBias ∧
    gyroOutAgnostic b = gyroOutAgnostic { b with gyrosBias := (0, 0, 0) } + b.gyrosBias ∧
    gyroOutQuadcopter b = gyroOutQuadcopter { b with gyrosBias := (0, 0, 0) } ∧
    gyroOutAirplane b = gyroOutAirplane { b with gyrosBias := (0, 0, 0) } := by
  refine ⟨?_, ?_, rfl, rfl⟩ <;>
    simp [gyroOutConstant, gyroOutAgnostic, Prod.ext_iff]

/-- C8 as stated is false: starting from a zero offset and last-emission time 0, a
tick at 10000 microseconds (elapsed 0.01 s, below the 0.05 s period) emits nothing
but already re-seeds the offset to 50; the next tick at 200000 microseconds with a
rand_gauss draw of 1 emits the very first reading, 50.01, although the vehicle is at
the ground (pos[2] = 0), so the offset at the first emission is not the fixed 50. -/
theorem baro_first_emission_counterexample :
    (baroTick 0 1 10000 ⟨0, 0⟩).2 = none ∧
    (baroTick 0 1 200000 (baroTick 0 1 10000 ⟨0, 0⟩).1).2 = some (5001 / 100) ∧
    (5001 / 100 : ℚ) ≠ -(0 : ℚ) + 50 := by
  have h1 : ¬ ((elapsedUS 10000 0 : ℚ) / 1000000 > BARO_PERIOD) := by
    norm_num [elapsedUS, BARO_PERIOD]
  have h2 : (elapsedUS 200000 0 : ℚ) / 1000000 > BARO_PERIOD := by
    norm_num [elapsedUS, BARO_PERIOD]
  refine ⟨by simp [baroTick, h1], ?_, by norm_num⟩
  have hs : (baroTick 0 1 10000 ⟨0, 0⟩).1 = ⟨50, 0⟩ := by
    simp [baroTick, h1]
  rw [hs]
  simp [baroTick, h2]
  norm_num

/-- C8 amended: every emitted barometric reading equals the negated down position
plus the current drift offset; the offset advances on every tick, emission or not:
it is re-seeded to the fixed nonzero value 50 whenever it is exactly zero (in
particular on the variant's first tick) and otherwise moves by the small random-walk
increment rand_gauss()/100. -/
theorem baro_tick_reading_and_offset (pos2 g : ℚ) (now : Nat) (s : BaroState) :
    ((baroTick pos2 g now s).2 = none ∨
      (baroTick pos2 g now s).2 = some (-pos2 + (baroTick pos2 g now s).1.off)) ∧
    (baroTick pos2 g now s).1.off = (if s.off = 0 then 50 else s.off + g / 100) := by
  unfold baroTick
  by_cases hc : (elapsedUS now s.last : ℚ) / 1000000 > BARO_PERIOD <;> simp [hc]

theorem sumSq_nonneg (q : Quat) : 0 ≤ sumSq q := by
  unfold sumSq
  have h0 := mul_self_nonneg q.q0
  have h1 := mul_self_nonneg q.q1
  have h2 := mul_self_nonneg q.q2
  have h3 := mul_self_nonneg q.q3
  linarith

theorem sumSq_quatNormalize (q : Quat) (h : sumSq q ≠ 0) :
    sumSq (quatNormalize q) = 1 := by
  have h0 : 0 ≤ sumSq q := sumSq_nonneg q
  have hpos : 0 < sumSq q := lt_of_le_of_ne h0 (Ne.symm h)
  have hs : Real.sqrt (sumSq q) * Real.sqrt (sumSq q) = sumSq q :=
    Real.mul_self_sqrt h0
  have hm : Real.sqrt (sumSq q) ≠ 0 := ne_of_gt (Real.sqrt_pos.mpr hpos)
  have expand : sumSq (quatNormalize q) =
      sumSq q / (Real.sqrt (sumSq q) * Real.sqrt (sumSq q)) := by
    rw [quatNormalize]
    rw [show sumSq ⟨q.q0 / Real.sqrt (sumSq q), q.q1 / Real.sqrt (sumSq q),
        q.q2 / Real.sqrt (sumSq q), q.q3 / Real.sqrt (sumSq q)⟩ =
        (q.q0 * q.q0 + q.q1 * q.q1 + q.q2 * q.q2 + q.q3 * q.q3) /
          (Real.sqrt (sumSq q) * Real.sqrt (sumSq q)) from by
      unfold sumSq
      field_simp]
    rfl
  rw [expand, hs, div_self h]

theorem sumSq_quatEuler (q : Quat) (r0 r1 r2 dT : ℝ) :
    sumSq (quatEuler q r0 r1 r2 dT) =
      sumSq q + sumSq (quatDot q r0 r1 r2 dT) := by
  simp only [sumSq, quatEuler, quatDot]
  ring

/-- C2: one attitude-integration step of the Quadcopter and Airplane variants, the
explicit Euler step followed by re-normalization, yields a quaternion of norm
exactly 1, for every nonzero incoming quaternion state (the stored quaternion starts
at (1,0,0,0) and the Euler step never shrinks the squared norm, so the hypothesis
holds on every tick). -/
theorem quat_step_unit_norm (q : Quat) (r0 r1 r2 dT : ℝ) (h : sumSq q ≠ 0) :
    Real.sqrt (sumSq (quatStep q r0 r1 r2 dT)) = 1 := by
  have hq0 : 0 ≤ sumSq q := sumSq_nonneg q
  have hqpos : 0 < sumSq q := lt_of_le_of_ne hq0 (Ne.symm h)
  have hd : 0 ≤ sumSq (quatDot q r0 r1 r2 dT) := sumSq_nonneg _
  have hpos : 0 < sumSq (quatEuler q r0 r1 r2 dT) := by
    rw [sumSq_quatEuler]
    linarith
  have h1 : sumSq (quatStep q r0 r1 r2 dT) = 1 :=
    sumSq_quatNormalize _ (ne_of_gt hpos)
  rw [h1, Real.sqrt_one]

/-- Witness for C2: the step at the initial quaternion (1,0,0,0), zero commanded
rates and dT = 0.002 s has unit norm. -/
theorem quat_step_unit_norm_witness :
    Real.sqrt (sumSq (quatStep ⟨1, 0, 0, 0⟩ 0 0 0 (1 / 500))) = 1 :=
  quat_step_unit_norm ⟨1, 0, 0, 0⟩ 0 0 0 (1 / 500) (by norm_num [sumSq])

/-- C10: the magnetometer bias-estimate update divides by the norm of the
yaw-aligned horizontal component with no guard: at the concrete input with identity
attitude, yaw 0, zero stored bias and a purely vertical bias-removed reading
(0,0,1), that norm is exactly 0 and the first two components of the bias increment
are non-finite. -/
theorem mag_offset_estimation_divides_by_zero :
    magXYNorm magEnvVertical = 0 ∧
    (magDelta magEnvVertical).1 = none ∧
    (magDelta magEnvVertical).2.1 = none := by
  have hxy : magXY magEnvVertical = (0, 0) := by
    norm_num [magXY, magNED, Quaternion2R, magEnvVertical, Real.cos_zero, Real.sin_zero]
  have hnorm : magXYNorm magEnvVertical = 0 := by
    rw [magXYNorm, hxy]
    norm_num
  refine ⟨hnorm, ?_, ?_⟩ <;> simp [magDelta, fdiv, hnorm]
